import Mathlib

/-!
Verification of the solar-calculation core of the repository
(Bird & Hulstrom clear-sky model and its helpers).

The Python sources are shallowly embedded as follows:
* `JulianDateCalculator.calculate` (src/api/app/utils/julianday.py) works on
  exact rationals: every float literal of the source (365.25, 30.6001, 1524.5)
  is exactly the corresponding rational, and `math.floor` is `Int.floor`.
* `PressureCalculator.station_pressure` (src/api/app/utils/pressure.py),
  `SolarPositionCalculator.calculate` (src/api/app/utils/solar_position.py)
  and `BirdModel.calculate` (src/api/app/services/birdmodel.py) are embedded
  over the real numbers.  Fallible operations of the source — Python `pow`
  on a non-positive base with fractional exponent (raises or produces a
  complex value that makes a later `math.exp` raise), float division by
  zero, `math.asin` outside `[-1, 1]` — are modelled with `Option`-valued
  primitives (`powD`, `divD`, `asinD`); `none` models a raised exception.
* `PVGISPlusService.calculate_day_average` (src/api/app/services/pvgis_plus.py)
  is embedded over ℚ on the list of records that survive the month/day
  timestamp filter; the `ValueError` raised when no record matches is the
  `none` case.
* The near-duplicate module src/random/tgunes2/bird_model.py is embedded a
  second time in namespace `Tg`, from its own source text.
-/

namespace JulianDateCalculator

/-- Embedding of `JulianDateCalculator.calculate`
(src/api/app/utils/julianday.py, lines 21–43): Gregorian calendar date and
time to Julian Date, over exact rationals. -/
def calculate (month day year : ℤ) (hour minute second : ℚ) : ℚ :=
  let y : ℤ := if month < 3 then year - 1 else year
  let m : ℤ := if month < 3 then month + 12 else month
  let A : ℤ := ⌊(y : ℚ) / 100⌋
  let B : ℤ := 2 - A + ⌊(A : ℚ) / 4⌋
  let JD : ℚ := (⌊(365.25 : ℚ) * ((y : ℚ) + 4716)⌋ : ℚ) +
    (⌊(30.6001 : ℚ) * ((m : ℚ) + 1)⌋ : ℚ) + (day : ℚ) + (B : ℚ) - 1524.5
  JD + hour / 24 + minute / 1440 + second / 86400

end JulianDateCalculator

namespace PressureCalculator

/-- Embedding of `PressureCalculator.station_pressure`
(src/api/app/utils/pressure.py, lines 17–25): sea-level pressure to station
pressure by the exponential approximation. -/
noncomputable def station_pressure (p_sea_level elevation_m : ℝ) : ℝ :=
  let H : ℝ := elevation_m / 1000
  p_sea_level * Real.exp (-0.119 * H - 0.0013 * H * H)

end PressureCalculator

/-- Python float division `x / y`: raises `ZeroDivisionError` iff `y == 0.0`;
`none` models the raised exception. -/
noncomputable def divD (x y : ℝ) : Option ℝ :=
  if y = 0 then none else some (x / y)

/-- Python `math.asin`: raises `ValueError` outside `[-1, 1]`. -/
noncomputable def asinD (x : ℝ) : Option ℝ :=
  if -1 ≤ x ∧ x ≤ 1 then some (Real.arcsin x) else none

/-- Python builtin `pow` on floats with the fractional exponents used by the
Bird model: positive base is ordinary `rpow`; zero base raises
`ZeroDivisionError` for a negative exponent; a negative base yields a complex
value that makes the later `math.exp` call raise `TypeError` — both failure
paths are modelled as `none`. -/
noncomputable def powD (x y : ℝ) : Option ℝ :=
  if 0 < x then some (x ^ y)
  else if x = 0 then (if 0 < y then some 0 else if y = 0 then some 1 else none)
  else none

/-- Python float `%` (sign follows the divisor): `a % b = a - b*⌊a/b⌋`. -/
noncomputable def fmod (a b : ℝ) : ℝ := a - b * ⌊a / b⌋

/-- Python `math.atan2 y x`, with values in `(-π, π]` — the argument of the
complex number `x + y·i`. -/
noncomputable def atan2 (y x : ℝ) : ℝ := Complex.arg ⟨x, y⟩

namespace SolarPositionCalculator

/-! Embedding of `SolarPositionCalculator.calculate`
(src/api/app/utils/solar_position.py, lines 16–54).  Each local variable of
the source becomes a function of the julian date (and longitude/latitude
where used); `calculate` chains the three fallible operations — the
division defining `R` and the two `math.asin` calls — in source order. -/

/-- Degrees-to-radians factor `dr = pi / 180` (solar_position.py line 17). -/
noncomputable def dr : ℝ := Real.pi / 180

/-- Julian centuries since J2000.0, the source's `T` (line 18). -/
noncomputable def Tc (jd : ℝ) : ℝ := (jd - 2451545) / 36525

/-- Mean longitude `L0` (line 20). -/
noncomputable def L0 (jd : ℝ) : ℝ :=
  280.46645 + 36000.76983 * Tc jd + 0.0003032 * Tc jd * Tc jd

/-- Mean anomaly `M` (line 21). -/
noncomputable def M (jd : ℝ) : ℝ :=
  357.52910 + 35999.05030 * Tc jd - 0.0001559 * Tc jd * Tc jd -
    0.00000048 * Tc jd * Tc jd * Tc jd

/-- Mean anomaly in radians, `M_rad` (line 22). -/
noncomputable def M_rad (jd : ℝ) : ℝ := M jd * dr

/-- Orbital eccentricity `e` (line 24). -/
noncomputable def ecc (jd : ℝ) : ℝ :=
  0.016708617 - 0.000042037 * Tc jd - 0.0000001236 * Tc jd * Tc jd

/-- Equation of center `C` (lines 25–27). -/
noncomputable def Ceq (jd : ℝ) : ℝ :=
  (1.914600 - 0.004817 * Tc jd - 0.000014 * Tc jd * Tc jd) * Real.sin (M_rad jd) +
    (0.019993 - 0.000101 * Tc jd) * Real.sin (2 * M_rad jd) +
    0.000290 * Real.sin (3 * M_rad jd)

/-- True longitude `L_true = (L0 + C) % 360` (line 29). -/
noncomputable def L_true (jd : ℝ) : ℝ := fmod (L0 jd + Ceq jd) 360

/-- True anomaly angle `f` (line 30). -/
noncomputable def fAnom (jd : ℝ) : ℝ := M_rad jd + Ceq jd * dr

/-- Earth–Sun distance `R` in AU (line 31), as the pure value of the
division performed by the source. -/
noncomputable def Rdist (jd : ℝ) : ℝ :=
  1.000001018 * (1 - ecc jd * ecc jd) / (1 + ecc jd * Real.cos (fAnom jd))

/-- Apparent sidereal time at Greenwich, reduced mod 360 (lines 33–36). -/
noncomputable def sidereal_time (jd : ℝ) : ℝ :=
  fmod (280.46061837 + 360.98564736629 * (jd - 2451545) +
    0.000387933 * Tc jd * Tc jd - Tc jd * Tc jd * Tc jd / 38710000) 360

/-- Mean obliquity of the ecliptic in degrees (lines 38–42). -/
noncomputable def obliquity (jd : ℝ) : ℝ :=
  23 + 26 / 60 + 21.448 / 3600 - 46.8150 / 3600 * Tc jd -
    0.00059 / 3600 * Tc jd * Tc jd + 0.001813 / 3600 * Tc jd * Tc jd * Tc jd

/-- Right ascension via `atan2` (lines 44–45). -/
noncomputable def right_ascension (jd : ℝ) : ℝ :=
  atan2 (Real.sin (L_true jd * dr) * Real.cos (obliquity jd * dr))
    (Real.cos (L_true jd * dr))

/-- The argument of the declination `asin` (line 46). -/
noncomputable def declArg (jd : ℝ) : ℝ :=
  Real.sin (obliquity jd * dr) * Real.sin (L_true jd * dr)

/-- Declination (line 46), as the pure value of the guarded `asin`. -/
noncomputable def declination (jd : ℝ) : ℝ := Real.arcsin (declArg jd)

/-- Hour angle in degrees (line 48). -/
noncomputable def hour_angle (jd lon : ℝ) : ℝ :=
  sidereal_time jd + lon - right_ascension jd / dr

/-- The argument of the final elevation `asin` (lines 49–51) — the quantity
the specification says must be clamped to `[-1, 1]`. -/
noncomputable def elevArg (jd lon lat : ℝ) : ℝ :=
  Real.sin (lat * dr) * Real.sin (declination jd) +
    Real.cos (lat * dr) * Real.cos (declination jd) * Real.cos (hour_angle jd lon * dr)

/-- Solar elevation in degrees (lines 49–51), pure value. -/
noncomputable def elevation (jd lon lat : ℝ) : ℝ :=
  Real.arcsin (elevArg jd lon lat) / dr

/-- Zenith angle in degrees (line 53), pure value. -/
noncomputable def zenith_angle (jd lon lat : ℝ) : ℝ := 90 - elevation jd lon lat

/-- Embedding of `SolarPositionCalculator.calculate`: the three fallible operations of
the source (the division defining `R`, the declination `asin`, the
elevation `asin`) chained in source order; on success it returns
`(zenith_angle, earth_sun_distance)`. -/
noncomputable def calculate (julian_date longitude latitude : ℝ) : Option (ℝ × ℝ) :=
  Option.bind (divD (1.000001018 * (1 - ecc julian_date * ecc julian_date))
      (1 + ecc julian_date * Real.cos (fAnom julian_date))) fun R =>
  Option.bind (asinD (declArg julian_date)) fun decl =>
  Option.bind (asinD (Real.sin (latitude * dr) * Real.sin decl +
      Real.cos (latitude * dr) * Real.cos decl *
        Real.cos (hour_angle julian_date longitude * dr))) fun el =>
  some (90 - el / dr, R)

end SolarPositionCalculator

/-- Input container of the Bird model
(src/api/app/dataclasses/solar_io_dc.py, `SolarInputsDataclass`). -/
structure SolarInputsDataclass where
  solar_constant : ℝ
  longitude : ℝ
  latitude : ℝ
  elevation : ℝ
  month : ℤ
  day : ℤ
  year : ℤ
  hour : ℤ
  minute : ℤ
  second : ℤ
  station_pressure : ℝ
  albedo : ℝ
  ozone : ℝ
  water_vapor : ℝ
  aot500 : ℝ
  aot380 : ℝ

/-- Output container of the Bird model
(src/api/app/dataclasses/solar_io_dc.py, `SolarOutputsDataclass`). -/
structure SolarOutputsDataclass where
  julian_date : ℝ
  station_pressure : ℝ
  earth_sun_distance : ℝ
  zenith_angle : ℝ
  air_mass : ℝ
  corrected_solar_constant : ℝ
  direct_horizontal : ℝ
  diffuse_horizontal : ℝ
  total_horizontal : ℝ

namespace BirdModel

/-- The atmospheric-optics chain of `BirdModel.calculate`
(src/api/app/services/birdmodel.py, lines 33–99), taking the already
computed julian date `jd`, station pressure `p`, zenith angle and
Earth–Sun distance `R`.  Every Python `pow` with a variable base and every
float division with a variable divisor goes through `powD`/`divD`, in
source order; the returned record builds `diffuse_horizontal` as
`Itot - Idh` exactly as lines 82 and 96–98 do. -/
noncomputable def birdCore (jd p zenith_angle R : ℝ)
    (inputs : SolarInputsDataclass) : Option SolarOutputsDataclass :=
  let dr := Real.pi / 180
  let Z_rad := zenith_angle * dr
  Option.bind (powD (93.885 - zenith_angle) (-1.25)) fun pw1 =>
  Option.bind (divD 1 (Real.cos Z_rad + 0.15 * pw1)) fun AM =>
  let AMp := AM * p / 1013
  Option.bind (powD AMp 0.84) fun pw2 =>
  Option.bind (powD AMp 1.01) fun pw3 =>
  let Tr := Real.exp (-0.0903 * pw2 * (1 + AMp - pw3))
  let Ozm := inputs.ozone * AM
  Option.bind (powD (1 + 139.48 * Ozm) (-0.3035)) fun pw4 =>
  Option.bind (divD (0.002715 * Ozm) (1 + 0.044 * Ozm + 0.0003 * Ozm * Ozm)) fun d1 =>
  let Toz := 1 - 0.1611 * Ozm * pw4 - d1
  Option.bind (powD AMp 0.26) fun pw5 =>
  let Tm := Real.exp (-0.0127 * pw5)
  let Wm := AM * inputs.water_vapor
  Option.bind (powD (79.034 * Wm) 0.6828) fun pw6 =>
  Option.bind (divD (2.4959 * Wm) ((1 + pw6) + 6.385 * Wm)) fun d2 =>
  let Tw := 1 - d2
  let Tau := 0.2758 * inputs.aot380 + 0.35 * inputs.aot500
  Option.bind (powD Tau 0.873) fun pw7 =>
  Option.bind (powD Tau 0.7088) fun pw8 =>
  Option.bind (powD AM 0.9108) fun pw9 =>
  let Ta := Real.exp (-pw7 * (1 + Tau - pw8) * pw9)
  Option.bind (powD AM 1.06) fun pw10 =>
  let TAA := 1 - 0.1 * (1 - AM + pw10) * (1 - Ta)
  Option.bind (divD Ta TAA) fun TAs =>
  let Rs := 0.0685 + (1 - 0.84) * (1 - TAs)
  Option.bind (divD 1 (R * R)) fun Rsq =>
  let Id := Rsq * inputs.solar_constant * 0.9662 * Tr * Toz * Tm * Tw * Ta
  let Idh := Id * Real.cos Z_rad
  Option.bind (powD AM 1.02) fun pw11 =>
  Option.bind (divD (0.79 * inputs.solar_constant * Real.cos Z_rad * Toz * Tm * Tw * TAA *
      (0.5 * (1 - Tr) + 0.85 * (1 - TAs))) (1 - AM + pw11)) fun Ias =>
  Option.bind (divD (Idh + Ias) (1 - inputs.albedo * Rs)) fun Itot =>
  some { julian_date := jd, station_pressure := p, earth_sun_distance := R,
         zenith_angle := zenith_angle, air_mass := AM,
         corrected_solar_constant := Rsq * inputs.solar_constant,
         direct_horizontal := Idh, diffuse_horizontal := Itot - Idh,
         total_horizontal := Itot }

/-- Embedding of `BirdModel.calculate`
(src/api/app/services/birdmodel.py, lines 13–99): julian date, station
pressure and solar position from the three helpers, then the
atmospheric-optics chain.  A `none` anywhere models the exception that the
`except` block at lines 101–103 logs and re-raises unchanged. -/
noncomputable def calculate (inputs : SolarInputsDataclass) : Option SolarOutputsDataclass :=
  let jd : ℝ := ((JulianDateCalculator.calculate inputs.month inputs.day inputs.year
    (inputs.hour : ℚ) (inputs.minute : ℚ) (inputs.second : ℚ) : ℚ) : ℝ)
  let p := PressureCalculator.station_pressure inputs.station_pressure inputs.elevation
  Option.bind (SolarPositionCalculator.calculate jd inputs.longitude inputs.latitude) fun zR =>
  birdCore jd p zR.1 zR.2 inputs

end BirdModel

namespace Tg

/-! Second, independent embedding of the near-duplicate module
src/random/tgunes2/bird_model.py, which carries its own copies of the
Julian-date, pressure, solar-position and Bird-model code (without the
API variant's logging and exception re-wrapping).  Its `SolarInputs` /
`SolarOutputs` dataclasses (lines 18–50) have exactly the fields of the
API's `SolarInputsDataclass` / `SolarOutputsDataclass`, so the same Lean
structures are used for both.  The single-function style of this file is
kept: each `calculate` is one definition with the source's locals as
`let`s. -/

namespace JulianDateCalculator

/-- Embedding of `JulianDateCalculator.calculate`
(src/random/tgunes2/bird_model.py, lines 56–74). -/
def calculate (month day year : ℤ) (hour minute second : ℚ) : ℚ :=
  let y : ℤ := if month < 3 then year - 1 else year
  let m : ℤ := if month < 3 then month + 12 else month
  let A : ℤ := ⌊(y : ℚ) / 100⌋
  let B : ℤ := 2 - A + ⌊(A : ℚ) / 4⌋
  let JD : ℚ := (⌊(365.25 : ℚ) * ((y : ℚ) + 4716)⌋ : ℚ) +
    (⌊(30.6001 : ℚ) * ((m : ℚ) + 1)⌋ : ℚ) + (day : ℚ) + (B : ℚ) - 1524.5
  JD + hour / 24 + minute / 1440 + second / 86400

end JulianDateCalculator

namespace PressureCalculator

/-- Embedding of `PressureCalculator.station_pressure`
(src/random/tgunes2/bird_model.py, lines 80–86). -/
noncomputable def station_pressure (p_sea_level elevation_m : ℝ) : ℝ :=
  let H : ℝ := elevation_m / 1000
  p_sea_level * Real.exp (-0.119 * H - 0.0013 * H * H)

end PressureCalculator

namespace SolarPositionCalculator

/-- Embedding of `SolarPositionCalculator.calculate`
(src/random/tgunes2/bird_model.py, lines 92–139), with the source's local
variables as `let`s and the division defining `R` and the two `asin`
calls guarded, in source order. -/
noncomputable def calculate (julian_date longitude latitude : ℝ) : Option (ℝ × ℝ) :=
  let dr := Real.pi / 180
  let T := (julian_date - 2451545) / 36525
  let L0 := 280.46645 + 36000.76983 * T + 0.0003032 * T * T
  let M := 357.52910 + 35999.05030 * T - 0.0001559 * T * T - 0.00000048 * T * T * T
  let M_rad := M * dr
  let e := 0.016708617 - 0.000042037 * T - 0.0000001236 * T * T
  let C := (1.914600 - 0.004817 * T - 0.000014 * T * T) * Real.sin M_rad +
    (0.019993 - 0.000101 * T) * Real.sin (2 * M_rad) +
    0.000290 * Real.sin (3 * M_rad)
  let L_true := fmod (L0 + C) 360
  let f := M_rad + C * dr
  Option.bind (divD (1.000001018 * (1 - e * e)) (1 + e * Real.cos f)) fun R =>
  let sidereal_time := fmod (280.46061837 + 360.98564736629 * (julian_date - 2451545) +
    0.000387933 * T * T - T * T * T / 38710000) 360
  let obliquity := 23 + 26 / 60 + 21.448 / 3600 - 46.8150 / 3600 * T -
    0.00059 / 3600 * T * T + 0.001813 / 3600 * T * T * T
  let right_ascension := atan2 (Real.sin (L_true * dr) * Real.cos (obliquity * dr))
    (Real.cos (L_true * dr))
  Option.bind (asinD (Real.sin (obliquity * dr) * Real.sin (L_true * dr))) fun declination =>
  let hour_angle := sidereal_time + longitude - right_ascension / dr
  Option.bind (asinD (Real.sin (latitude * dr) * Real.sin declination +
    Real.cos (latitude * dr) * Real.cos declination *
      Real.cos (hour_angle * dr))) fun el =>
  some (90 - el / dr, R)

end SolarPositionCalculator

namespace BirdModel

/-- Embedding of `BirdModel.calculate`
(src/random/tgunes2/bird_model.py, lines 145–211): same computation as
the API variant, without logging. -/
noncomputable def calculate (inputs : SolarInputsDataclass) : Option SolarOutputsDataclass :=
  let jd : ℝ := ((Tg.JulianDateCalculator.calculate inputs.month inputs.day inputs.year
    (inputs.hour : ℚ) (inputs.minute : ℚ) (inputs.second : ℚ) : ℚ) : ℝ)
  let p := Tg.PressureCalculator.station_pressure inputs.station_pressure inputs.elevation
  Option.bind (Tg.SolarPositionCalculator.calculate jd inputs.longitude inputs.latitude) fun zR =>
  let zenith_angle := zR.1
  let R := zR.2
  let dr := Real.pi / 180
  let Z_rad := zenith_angle * dr
  Option.bind (powD (93.885 - zenith_angle) (-1.25)) fun pw1 =>
  Option.bind (divD 1 (Real.cos Z_rad + 0.15 * pw1)) fun AM =>
  let AMp := AM * p / 1013
  Option.bind (powD AMp 0.84) fun pw2 =>
  Option.bind (powD AMp 1.01) fun pw3 =>
  let Tr := Real.exp (-0.0903 * pw2 * (1 + AMp - pw3))
  let Ozm := inputs.ozone * AM
  Option.bind (powD (1 + 139.48 * Ozm) (-0.3035)) fun pw4 =>
  Option.bind (divD (0.002715 * Ozm) (1 + 0.044 * Ozm + 0.0003 * Ozm * Ozm)) fun d1 =>
  let Toz := 1 - 0.1611 * Ozm * pw4 - d1
  Option.bind (powD AMp 0.26) fun pw5 =>
  let Tm := Real.exp (-0.0127 * pw5)
  let Wm := AM * inputs.water_vapor
  Option.bind (powD (79.034 * Wm) 0.6828) fun pw6 =>
  Option.bind (divD (2.4959 * Wm) ((1 + pw6) + 6.385 * Wm)) fun d2 =>
  let Tw := 1 - d2
  let Tau := 0.2758 * inputs.aot380 + 0.35 * inputs.aot500
  Option.bind (powD Tau 0.873) fun pw7 =>
  Option.bind (powD Tau 0.7088) fun pw8 =>
  Option.bind (powD AM 0.9108) fun pw9 =>
  let Ta := Real.exp (-pw7 * (1 + Tau - pw8) * pw9)
  Option.bind (powD AM 1.06) fun pw10 =>
  let TAA := 1 - 0.1 * (1 - AM + pw10) * (1 - Ta)
  Option.bind (divD Ta TAA) fun TAs =>
  let Rs := 0.0685 + (1 - 0.84) * (1 - TAs)
  Option.bind (divD 1 (R * R)) fun Rsq =>
  let Id := Rsq * inputs.solar_constant * 0.9662 * Tr * Toz * Tm * Tw * Ta
  let Idh := Id * Real.cos Z_rad
  Option.bind (powD AM 1.02) fun pw11 =>
  Option.bind (divD (0.79 * inputs.solar_constant * Real.cos Z_rad * Toz * Tm * Tw * TAA *
      (0.5 * (1 - Tr) + 0.85 * (1 - TAs))) (1 - AM + pw11)) fun Ias =>
  Option.bind (divD (Idh + Ias) (1 - inputs.albedo * Rs)) fun Itot =>
  some { julian_date := jd, station_pressure := p, earth_sun_distance := R,
         zenith_angle := zenith_angle, air_mass := AM,
         corrected_solar_constant := Rsq * inputs.solar_constant,
         direct_horizontal := Idh, diffuse_horizontal := Itot - Idh,
         total_horizontal := Itot }

end BirdModel

end Tg

/-- The recomposition invariant of a Bird-model result: when a record is
produced, its total horizontal irradiance is the sum of the direct and
diffuse horizontal components; a failed computation satisfies it trivially. -/
def recomposes : Option SolarOutputsDataclass → Prop
  | none => True
  | some out =>
      out.total_horizontal = out.direct_horizontal + out.diffuse_horizontal

/-- One already-filtered hourly record consumed by
`PVGISPlusService.calculate_day_average`
(src/api/app/services/pvgis_plus.py, lines 48–54): the dictionary built for
each record whose timestamp matches the requested month/day, keyed by the
hour parsed from the timestamp. -/
structure PVGISRecord where
  hour : ℕ
  G_i : ℚ
  H_sun : ℚ
  T2m : ℚ
  WS10m : ℚ
  Int_ : ℚ
deriving DecidableEq

/-- Schema `HourlyData` (src/api/app/schemas/pvgis_schemas.py, lines
380–389); the source field `Int` is spelled `Int_` here. -/
structure HourlyData where
  hour : ℕ
  G_i : ℚ
  H_sun : ℚ
  T2m : ℚ
  WS10m : ℚ
  Int_ : ℚ
  sample_count : ℕ
deriving DecidableEq

/-- The aggregation part of schema `PVGISDayAverageResponse`
(src/api/app/schemas/pvgis_schemas.py, lines 392–403); the metadata fields
(latitude, longitude, month, day, years) are pass-through values from the
request and the external PVGIS service and carry no computation. -/
structure PVGISDayAverageResponse where
  hourly_averages : List HourlyData
  peak_hour : ℕ
  peak_irradiance : ℚ
  daily_total_energy : ℚ
deriving DecidableEq

namespace PVGISPlusService

/-! Embedding of `PVGISPlusService.calculate_day_average`
(src/api/app/services/pvgis_plus.py, lines 56–117) on the list of records
that survive the month/day filter.  `hourly_groups[hour]` is `group`;
the `for hour in range(24)` loop body becomes `hourAvg` (the appended
entry), `peakStep`/`peakAux` (the `peak_hour`/`peak_irradiance`
accumulators, updated only in the has-data branch and only on a strictly
greater mean) and `dailyAux` (the `daily_total` accumulator, likewise only
incremented in the has-data branch). -/

/-- Records of a given hour: `hourly_groups[hour]` (lines 45–54). -/
def group (recs : List PVGISRecord) (h : ℕ) : List PVGISRecord :=
  recs.filter (fun r => r.hour == h)

/-- Arithmetic mean `sum(...) / len(records)` (lines 76–80). -/
def mean (l : List ℚ) : ℚ := l.sum / (l.length : ℚ)

/-- The `HourlyData` entry appended for one hour: averages of each field
when the hour has records (lines 74–84), the all-zero entry with
`sample_count = 0` otherwise (lines 91–100). -/
def hourAvg (recs : List PVGISRecord) (h : ℕ) : HourlyData :=
  let g := group recs h
  if g.isEmpty then ⟨h, 0, 0, 0, 0, 0, 0⟩
  else ⟨h, mean (g.map fun r => r.G_i), mean (g.map fun r => r.H_sun),
    mean (g.map fun r => r.T2m), mean (g.map fun r => r.WS10m),
    mean (g.map fun r => r.Int_), g.length⟩

/-- The 24 hourly entries produced by the loop (lines 70–100). -/
def hourly_averages (recs : List PVGISRecord) : List HourlyData :=
  (List.range 24).map (hourAvg recs)

/-- One iteration of the `peak_hour`/`peak_irradiance` update
(lines 87–89): only in the has-data branch, only on strictly greater. -/
def peakStep (recs : List PVGISRecord) (acc : ℕ × ℚ) (h : ℕ) : ℕ × ℚ :=
  if (group recs h).isEmpty then acc
  else if mean ((group recs h).map fun r => r.G_i) > acc.2
  then (h, mean ((group recs h).map fun r => r.G_i)) else acc

/-- The `peak_hour`/`peak_irradiance` accumulators after the first `n`
iterations of the loop, from their initial values `(0, 0.0)`
(lines 66–67); iteration `n` processes hour `n`. -/
def peakAux (recs : List PVGISRecord) : ℕ → ℕ × ℚ
  | 0 => (0, 0)
  | n + 1 => peakStep recs (peakAux recs n) n

/-- The `daily_total` accumulator after the first `n` iterations of the
loop (lines 68 and 85): incremented by the mean irradiance only in the
has-data branch. -/
def dailyAux (recs : List PVGISRecord) : ℕ → ℚ
  | 0 => 0
  | n + 1 =>
      if (group recs n).isEmpty then dailyAux recs n
      else dailyAux recs n + mean ((group recs n).map fun r => r.G_i)

/-- The response assembled at lines 107–117. -/
def buildResponse (recs : List PVGISRecord) : PVGISDayAverageResponse :=
  { hourly_averages := hourly_averages recs
    peak_hour := (peakAux recs 24).1
    peak_irradiance := (peakAux recs 24).2
    daily_total_energy := dailyAux recs 24 }

/-- Embedding of `calculate_day_average` on the filtered record list: an
empty list is the `ValueError` raised at lines 56–60 (re-raised as
`RuntimeError` at lines 119–120), modelled as `none`. -/
def calculate_day_average (recs : List PVGISRecord) : Option PVGISDayAverageResponse :=
  if recs.isEmpty then none else some (buildResponse recs)

end PVGISPlusService

/-- Modelled from the spec: the claim-side notion used by §8 of the
specification, namely that `v` is the maximum of the list `l`
(`max(h.G_i for h in hourly_averages)`): `v` occurs in `l` and bounds every
element of `l`. -/
def isListMax (l : List ℚ) (v : ℚ) : Prop := v ∈ l ∧ ∀ x ∈ l, x ≤ v

/-- Concrete record set with a single positive-irradiance record at hour 12;
used by witnesses. -/
def posDayRecs : List PVGISRecord := [⟨12, 10, 1, 2, 3, 4⟩]

/-- Concrete record set with a single negative-irradiance record at hour 0;
used as the counterexample input for the peak computation. -/
def negDayRecs : List PVGISRecord := [⟨0, -1, 0, 0, 0, 0⟩]

/-- C4: `JulianDateCalculator.calculate` first maps `month < 3` to
`(year - 1, month + 12)`, then with `A = ⌊year/100⌋` and
`B = 2 - A + ⌊A/4⌋` returns
`⌊365.25*(year+4716)⌋ + ⌊30.6001*(month+1)⌋ + day + B - 1524.5
 + hour/24 + minute/1440 + second/86400`; in particular
`calculate 1 1 2000 12 0 0 = 2451545` (the J2000.0 epoch), exactly. -/
theorem julian_date_formula_and_j2000 :
    (∀ (month day year : ℤ) (hour minute second : ℚ),
      JulianDateCalculator.calculate month day year hour minute second =
        (⌊(365.25 : ℚ) * (((if month < 3 then year - 1 else year) : ℤ) + 4716)⌋ : ℚ) +
        (⌊(30.6001 : ℚ) * (((if month < 3 then month + 12 else month) : ℤ) + 1)⌋ : ℚ) +
        (day : ℚ) +
        ((2 - ⌊((if month < 3 then year - 1 else year : ℤ) : ℚ) / 100⌋ +
          ⌊((⌊((if month < 3 then year - 1 else year : ℤ) : ℚ) / 100⌋ : ℤ) : ℚ) / 4⌋ : ℤ) : ℚ) -
        1524.5 + hour / 24 + minute / 1440 + second / 86400) ∧
    JulianDateCalculator.calculate 1 1 2000 12 0 0 = 2451545 := by
  constructor
  · intro month day year hour minute second
    simp only [JulianDateCalculator.calculate]
  · norm_num [JulianDateCalculator.calculate]

/-- C8: `PressureCalculator.station_pressure p 0 = p` for every sea-level
pressure `p` (zero elevation is the identity), and for every negative
elevation within physically meaningful depths (here down to −11000 m) and
positive sea-level pressure, the station pressure is strictly greater than
the input pressure. -/
theorem station_pressure_zero_and_below_sea_level :
    (∀ p : ℝ, PressureCalculator.station_pressure p 0 = p) ∧
    (∀ p elev : ℝ, 0 < p → -11000 ≤ elev → elev < 0 →
      p < PressureCalculator.station_pressure p elev) := by
  constructor
  · intro p
    simp [PressureCalculator.station_pressure]
  · intro p elev hp hlo hhi
    have hpos : 0 < -0.119 * (elev / 1000) - 0.0013 * (elev / 1000) * (elev / 1000) := by
      nlinarith
    have hexp : 1 < Real.exp (-0.119 * (elev / 1000) - 0.0013 * (elev / 1000) * (elev / 1000)) :=
      Real.one_lt_exp_iff.mpr hpos
    have := mul_lt_mul_of_pos_left hexp hp
    simpa [PressureCalculator.station_pressure] using this

/-- Witness for C8 at concrete inputs: `p = 1013.25`, elevation `0` and
elevation `−400` (Dead Sea shore). -/
theorem station_pressure_zero_and_below_sea_level_witness :
    PressureCalculator.station_pressure 1013.25 0 = 1013.25 ∧
    1013.25 < PressureCalculator.station_pressure 1013.25 (-400) :=
  ⟨station_pressure_zero_and_below_sea_level.1 1013.25,
   station_pressure_zero_and_below_sea_level.2 1013.25 (-400)
     (by norm_num) (by norm_num) (by norm_num)⟩

lemma divD_of_ne (x y : ℝ) (h : y ≠ 0) : divD x y = some (x / y) := by
  simp [divD, h]

lemma asinD_of_mem (x : ℝ) (h1 : -1 ≤ x) (h2 : x ≤ 1) :
    asinD x = some (Real.arcsin x) := by
  simp [asinD, h1, h2]

lemma powD_of_pos (x y : ℝ) (h : 0 < x) : powD x y = some (x ^ y) := by
  simp [powD, h]

lemma powD_of_nonpos_neg (x y : ℝ) (hx : x ≤ 0) (hy : y < 0) : powD x y = none := by
  simp only [powD]
  rw [if_neg (not_lt.mpr hx)]
  rcases eq_or_lt_of_le hx with h | h
  · rw [if_pos h, if_neg (not_lt.mpr hy.le), if_neg (ne_of_lt hy)]
  · rw [if_neg (ne_of_lt h)]

lemma inner_product_bound (s1 c1 s2 c2 c3 : ℝ)
    (h1 : s1 ^ 2 + c1 ^ 2 = 1) (h2 : s2 ^ 2 + c2 ^ 2 = 1) (h3 : |c3| ≤ 1) :
    -1 ≤ s1 * s2 + c1 * c2 * c3 ∧ s1 * s2 + c1 * c2 * c3 ≤ 1 := by
  obtain ⟨hc1, hc2⟩ := abs_le.mp h3
  have k1 : 0 ≤ 1 - s1 * s2 - c1 * c2 := by
    nlinarith [sq_nonneg (s1 - s2), sq_nonneg (c1 - c2)]
  have k2 : 0 ≤ 1 - s1 * s2 + c1 * c2 := by
    nlinarith [sq_nonneg (s1 - s2), sq_nonneg (c1 + c2)]
  have k3 : 0 ≤ 1 + s1 * s2 - c1 * c2 := by
    nlinarith [sq_nonneg (s1 + s2), sq_nonneg (c1 - c2)]
  have k4 : 0 ≤ 1 + s1 * s2 + c1 * c2 := by
    nlinarith [sq_nonneg (s1 + s2), sq_nonneg (c1 + c2)]
  constructor
  · nlinarith [mul_nonneg k4 (by linarith : (0:ℝ) ≤ 1 + c3),
      mul_nonneg k3 (by linarith : (0:ℝ) ≤ 1 - c3)]
  · nlinarith [mul_nonneg k1 (by linarith : (0:ℝ) ≤ 1 + c3),
      mul_nonneg k2 (by linarith : (0:ℝ) ≤ 1 - c3)]

namespace SolarPositionCalculator

lemma declArg_mem (jd : ℝ) : -1 ≤ declArg jd ∧ declArg jd ≤ 1 := by
  unfold declArg
  have a1 := Real.neg_one_le_sin (obliquity jd * dr)
  have a2 := Real.sin_le_one (obliquity jd * dr)
  have b1 := Real.neg_one_le_sin (L_true jd * dr)
  have b2 := Real.sin_le_one (L_true jd * dr)
  constructor <;> nlinarith

lemma elevArg_mem (jd lon lat : ℝ) :
    -1 ≤ elevArg jd lon lat ∧ elevArg jd lon lat ≤ 1 := by
  unfold elevArg
  exact inner_product_bound _ _ _ _ _
    (Real.sin_sq_add_cos_sq (lat * dr))
    (Real.sin_sq_add_cos_sq (declination jd))
    (Real.abs_cos_le_one (hour_angle jd lon * dr))

lemma calculate_eq_some (jd lon lat : ℝ)
    (h : 1 + ecc jd * Real.cos (fAnom jd) ≠ 0) :
    calculate jd lon lat = some (zenith_angle jd lon lat, Rdist jd) := by
  have hd := declArg_mem jd
  have he := elevArg_mem jd lon lat
  unfold calculate
  rw [divD_of_ne _ _ h, asinD_of_mem _ hd.1 hd.2]
  show Option.bind (asinD (Real.sin (lat * dr) * Real.sin (Real.arcsin (declArg jd)) +
      Real.cos (lat * dr) * Real.cos (Real.arcsin (declArg jd)) *
        Real.cos (hour_angle jd lon * dr))) _ = _
  have harg : Real.sin (lat * dr) * Real.sin (Real.arcsin (declArg jd)) +
      Real.cos (lat * dr) * Real.cos (Real.arcsin (declArg jd)) *
        Real.cos (hour_angle jd lon * dr) = elevArg jd lon lat := rfl
  rw [harg, asinD_of_mem _ he.1 he.2]
  rfl

lemma Tc_bounds (jd : ℝ) (h1 : 2415020 ≤ jd) (h2 : jd ≤ 2488435) :
    -1 ≤ Tc jd ∧ Tc jd ≤ 1.01 := by
  unfold Tc
  constructor
  · rw [le_div_iff (by norm_num : (0:ℝ) < 36525)]; linarith
  · rw [div_le_iff (by norm_num : (0:ℝ) < 36525)]; linarith

lemma ecc_bounds (jd : ℝ) (h1 : 2415020 ≤ jd) (h2 : jd ≤ 2488435) :
    0.0166 ≤ ecc jd ∧ ecc jd ≤ 0.01676 := by
  obtain ⟨hT1, hT2⟩ := Tc_bounds jd h1 h2
  unfold ecc
  have hsq : 0 ≤ (1.01 - Tc jd) * (Tc jd + 1) := by
    apply mul_nonneg <;> linarith
  constructor <;> nlinarith

lemma denom_pos (jd : ℝ) (h1 : 2415020 ≤ jd) (h2 : jd ≤ 2488435) :
    0 < 1 + ecc jd * Real.cos (fAnom jd) := by
  obtain ⟨he1, he2⟩ := ecc_bounds jd h1 h2
  have hc1 := Real.neg_one_le_cos (fAnom jd)
  have hc2 := Real.cos_le_one (fAnom jd)
  nlinarith [mul_nonneg (by linarith : (0:ℝ) ≤ ecc jd)
    (by linarith : (0:ℝ) ≤ Real.cos (fAnom jd) + 1)]

lemma Rdist_bounds (jd : ℝ) (h1 : 2415020 ≤ jd) (h2 : jd ≤ 2488435) :
    0.97 ≤ Rdist jd ∧ Rdist jd ≤ 1.04 := by
  obtain ⟨he1, he2⟩ := ecc_bounds jd h1 h2
  have hdp := denom_pos jd h1 h2
  have hc1 := Real.neg_one_le_cos (fAnom jd)
  have hc2 := Real.cos_le_one (fAnom jd)
  have hcu : ecc jd * Real.cos (fAnom jd) ≤ ecc jd := by
    nlinarith [mul_nonneg (by linarith : (0:ℝ) ≤ ecc jd)
      (by linarith : (0:ℝ) ≤ 1 - Real.cos (fAnom jd))]
  have hcl : -ecc jd ≤ ecc jd * Real.cos (fAnom jd) := by
    nlinarith [mul_nonneg (by linarith : (0:ℝ) ≤ ecc jd)
      (by linarith : (0:ℝ) ≤ Real.cos (fAnom jd) + 1)]
  have hesq : ecc jd * ecc jd ≤ 0.01676 * 0.01676 := by
    nlinarith
  unfold Rdist
  constructor
  · rw [le_div_iff hdp]; nlinarith
  · rw [div_le_iff hdp]; nlinarith

lemma zenith_angle_bounds (jd lon lat : ℝ) :
    0 ≤ zenith_angle jd lon lat ∧ zenith_angle jd lon lat ≤ 180 := by
  unfold zenith_angle elevation
  have h1 := Real.arcsin_le_pi_div_two (elevArg jd lon lat)
  have h2 := Real.neg_pi_div_two_le_arcsin (elevArg jd lon lat)
  have hdr : 0 < dr := by unfold dr; positivity
  have hup : Real.arcsin (elevArg jd lon lat) / dr ≤ 90 := by
    rw [div_le_iff hdr]
    unfold dr
    have : (90 : ℝ) * (Real.pi / 180) = Real.pi / 2 := by ring
    linarith [this]
  have hlo : -90 ≤ Real.arcsin (elevArg jd lon lat) / dr := by
    rw [le_div_iff hdr]
    unfold dr
    have : (-90 : ℝ) * (Real.pi / 180) = -(Real.pi / 2) := by ring
    linarith [this]
  constructor <;> linarith

end SolarPositionCalculator

/-- C3: in the exact-real-arithmetic embedding, the argument of the final
elevation `asin` in `SolarPositionCalculator.calculate` always lies in
`[-1, 1]`, so the (unclamped) `asin` call of the source cannot hit a domain
failure in exact arithmetic.  The source applies `math.asin` directly with
no clamp; only floating-point rounding (outside this embedding) can push
the argument out of the interval, which is the latent defect §9 of the
specification flags. -/
theorem elevation_asin_argument_in_domain :
    ∀ jd lon lat : ℝ,
      (-1 ≤ SolarPositionCalculator.elevArg jd lon lat ∧
        SolarPositionCalculator.elevArg jd lon lat ≤ 1) ∧
      asinD (SolarPositionCalculator.elevArg jd lon lat) =
        some (Real.arcsin (SolarPositionCalculator.elevArg jd lon lat)) := by
  intro jd lon lat
  have h := SolarPositionCalculator.elevArg_mem jd lon lat
  exact ⟨h, asinD_of_mem _ h.1 h.2⟩

/-- C5: for valid inputs (latitude in `[-90, 90]`, longitude in
`[-180, 180]`, julian date inside the 1900–2100 epoch window
`[2415020, 2488435]`), `SolarPositionCalculator.calculate` succeeds and
returns a zenith angle in `[0, 180]` degrees and an Earth–Sun distance in
`[0.97, 1.04]` AU. -/
theorem solar_position_output_ranges :
    ∀ jd lon lat : ℝ, -90 ≤ lat → lat ≤ 90 → -180 ≤ lon → lon ≤ 180 →
      2415020 ≤ jd → jd ≤ 2488435 →
      SolarPositionCalculator.calculate jd lon lat =
        some (SolarPositionCalculator.zenith_angle jd lon lat,
              SolarPositionCalculator.Rdist jd) ∧
      0 ≤ SolarPositionCalculator.zenith_angle jd lon lat ∧
      SolarPositionCalculator.zenith_angle jd lon lat ≤ 180 ∧
      0.97 ≤ SolarPositionCalculator.Rdist jd ∧
      SolarPositionCalculator.Rdist jd ≤ 1.04 := by
  intro jd lon lat _ _ _ _ hj1 hj2
  obtain ⟨hz1, hz2⟩ := SolarPositionCalculator.zenith_angle_bounds jd lon lat
  obtain ⟨hr1, hr2⟩ := SolarPositionCalculator.Rdist_bounds jd hj1 hj2
  exact ⟨SolarPositionCalculator.calculate_eq_some jd lon lat
    (ne_of_gt (SolarPositionCalculator.denom_pos jd hj1 hj2)), hz1, hz2, hr1, hr2⟩

/-- Witness for C5 at the concrete input `jd = 2451545` (J2000.0 noon),
`lon = 27.149`, `lat = 38.447` (İzmir). -/
theorem solar_position_output_ranges_witness :
    SolarPositionCalculator.calculate 2451545 27.149 38.447 =
      some (SolarPositionCalculator.zenith_angle 2451545 27.149 38.447,
            SolarPositionCalculator.Rdist 2451545) ∧
    0 ≤ SolarPositionCalculator.zenith_angle 2451545 27.149 38.447 ∧
    SolarPositionCalculator.zenith_angle 2451545 27.149 38.447 ≤ 180 ∧
    0.97 ≤ SolarPositionCalculator.Rdist 2451545 ∧
    SolarPositionCalculator.Rdist 2451545 ≤ 1.04 :=
  solar_position_output_ranges 2451545 27.149 38.447 (by norm_num) (by norm_num)
    (by norm_num) (by norm_num) (by norm_num) (by norm_num)

lemma recomposes_bind {α : Type} (o : Option α) (f : α → Option SolarOutputsDataclass)
    (h : ∀ a, recomposes (f a)) : recomposes (Option.bind o f) := by
  cases o with
  | none => exact trivial
  | some a => exact h a

/-- C1: whenever `BirdModel.calculate` returns a result, the returned
output satisfies `total_horizontal = direct_horizontal + diffuse_horizontal`
exactly: `diffuse_horizontal` is built as `Itot - Idh` after `Itot`, so
direct plus diffuse recomposes to exactly the total (exact real
arithmetic of the embedding). -/
theorem total_recomposes_from_direct_and_diffuse :
    ∀ inputs : SolarInputsDataclass, recomposes (BirdModel.calculate inputs) := by
  intro i
  unfold BirdModel.calculate
  apply recomposes_bind
  intro zR
  unfold BirdModel.birdCore
  apply recomposes_bind; intro pw1
  apply recomposes_bind; intro AM
  apply recomposes_bind; intro pw2
  apply recomposes_bind; intro pw3
  apply recomposes_bind; intro pw4
  apply recomposes_bind; intro d1
  apply recomposes_bind; intro pw5
  apply recomposes_bind; intro pw6
  apply recomposes_bind; intro d2
  apply recomposes_bind; intro pw7
  apply recomposes_bind; intro pw8
  apply recomposes_bind; intro pw9
  apply recomposes_bind; intro pw10
  apply recomposes_bind; intro TAs
  apply recomposes_bind; intro Rsq
  apply recomposes_bind; intro pw11
  apply recomposes_bind; intro Ias
  apply recomposes_bind; intro Itot
  simp only [recomposes]
  ring

/-- C2 (behaviour at or below the air-mass horizon threshold): for any
zenith angle at or above 93.885 degrees the base of
`pow(93.885 - zenith, -1.25)` is non-positive, and the embedded
computation fails (`none`) — modelling the `ZeroDivisionError`
(zenith = 93.885) or the complex value that makes `math.exp` raise a
`TypeError` (zenith > 93.885), which the source re-raises unchanged
instead of returning zero irradiance or a typed domain error. -/
theorem birdcore_fails_when_sun_below_horizon :
    ∀ (jd p z R : ℝ) (inputs : SolarInputsDataclass), 93.885 ≤ z →
      BirdModel.birdCore jd p z R inputs = none := by
  intro jd p z R i hz
  unfold BirdModel.birdCore
  rw [powD_of_nonpos_neg _ _ (by linarith) (by norm_num)]
  rfl

/-- Witness for C2's theorem at the concrete zenith angle 94 degrees (a
night-time configuration such as latitude 40, longitude −75 at
2007-06-21 05:00 UTC). -/
theorem birdcore_fails_when_sun_below_horizon_witness :
    (93.885 : ℝ) ≤ 94 ∧
    BirdModel.birdCore 2454273.25 1012 94 1.016
      ⟨1367, -75, 40, 120, 6, 21, 2007, 5, 0, 0, 1012, 0.2, 0.3, 1.5, 0.1, 0.15⟩ = none :=
  ⟨by norm_num,
   birdcore_fails_when_sun_below_horizon 2454273.25 1012 94 1.016
     ⟨1367, -75, 40, 120, 6, 21, 2007, 5, 0, 0, 1012, 0.2, 0.3, 1.5, 0.1, 0.15⟩
     (by norm_num)⟩

namespace PVGISPlusService

lemma hourAvg_G_i (recs : List PVGISRecord) (h : ℕ) :
    (hourAvg recs h).G_i =
      if (group recs h).isEmpty then 0
      else mean ((group recs h).map fun r => r.G_i) := by
  unfold hourAvg
  by_cases hg : (group recs h).isEmpty <;> simp [hg]

lemma peakStep_eq_of_nonneg (recs : List PVGISRecord) (acc : ℕ × ℚ) (h : ℕ)
    (hacc : 0 ≤ acc.2) :
    peakStep recs acc h =
      if acc.2 < (hourAvg recs h).G_i then (h, (hourAvg recs h).G_i) else acc := by
  unfold peakStep
  rw [hourAvg_G_i]
  by_cases hg : (group recs h).isEmpty
  · rw [if_pos hg, if_pos hg, if_neg (not_lt.mpr hacc)]
  · rw [if_neg hg, if_neg hg]

lemma peakAux_spec (recs : List PVGISRecord) :
    ∀ n : ℕ,
      (peakAux recs n = (0, 0) ∧ ∀ h, h < n → (hourAvg recs h).G_i ≤ 0) ∨
      (0 < (peakAux recs n).2 ∧ (peakAux recs n).1 < n ∧
        (hourAvg recs (peakAux recs n).1).G_i = (peakAux recs n).2 ∧
        (∀ j, j < (peakAux recs n).1 → (hourAvg recs j).G_i < (peakAux recs n).2) ∧
        (∀ h, h < n → (hourAvg recs h).G_i ≤ (peakAux recs n).2)) := by
  intro n
  induction n with
  | zero => exact Or.inl ⟨rfl, fun h hh => absurd hh (Nat.not_lt_zero h)⟩
  | succ n ih =>
      have hnn : 0 ≤ (peakAux recs n).2 := by
        rcases ih with ⟨h1, _⟩ | ⟨h1, _⟩
        · rw [h1]
        · exact le_of_lt h1
      have hstep : peakAux recs (n + 1) =
          if (peakAux recs n).2 < (hourAvg recs n).G_i
          then (n, (hourAvg recs n).G_i) else peakAux recs n := by
        show peakStep recs (peakAux recs n) n = _
        exact peakStep_eq_of_nonneg recs _ n hnn
      by_cases hlt : (peakAux recs n).2 < (hourAvg recs n).G_i
      · right
        rw [hstep, if_pos hlt]
        refine ⟨lt_of_le_of_lt hnn hlt, Nat.lt_succ_self n, rfl, ?_, ?_⟩
        · intro j hj
          rcases ih with ⟨h1, h2⟩ | ⟨_, _, _, _, h5⟩
          · have h0 : (peakAux recs n).2 = 0 := by rw [h1]
            rw [h0] at hlt
            exact lt_of_le_of_lt (h2 j hj) hlt
          · exact lt_of_le_of_lt (h5 j hj) hlt
        · intro h hh
          rcases Nat.lt_succ_iff_lt_or_eq.mp hh with hh | hh
          · rcases ih with ⟨h1, h2⟩ | ⟨_, _, _, _, h5⟩
            · have h0 : (peakAux recs n).2 = 0 := by rw [h1]
              rw [h0] at hlt
              exact le_of_lt (lt_of_le_of_lt (h2 h hh) hlt)
            · exact le_of_lt (lt_of_le_of_lt (h5 h hh) hlt)
          · rw [hh]
      · rw [hstep, if_neg hlt]
        rcases ih with ⟨h1, h2⟩ | ⟨g1, g2, g3, g4, g5⟩
        · left
          refine ⟨h1, fun h hh => ?_⟩
          rcases Nat.lt_succ_iff_lt_or_eq.mp hh with hh | hh
          · exact h2 h hh
          · rw [hh]
            have h0 : (peakAux recs n).2 = 0 := by rw [h1]
            rw [h0] at hlt
            exact not_lt.mp hlt
        · right
          refine ⟨g1, Nat.lt_succ_of_lt g2, g3, g4, fun h hh => ?_⟩
          rcases Nat.lt_succ_iff_lt_or_eq.mp hh with hh | hh
          · exact g5 h hh
          · rw [hh]
            exact not_lt.mp hlt

lemma dailyAux_eq_sum (recs : List PVGISRecord) :
    ∀ n : ℕ, dailyAux recs n =
      ((List.range n).map fun h => (hourAvg recs h).G_i).sum := by
  intro n
  induction n with
  | zero => rfl
  | succ n ih =>
      rw [List.range_succ, List.map_append, List.sum_append]
      show (if (group recs n).isEmpty then dailyAux recs n
        else dailyAux recs n + mean ((group recs n).map fun r => r.G_i)) = _
      by_cases hg : (group recs n).isEmpty
      · rw [if_pos hg, ih]
        simp only [List.map_cons, List.map_nil, List.sum_cons, List.sum_nil]
        rw [hourAvg_G_i, if_pos hg]
        simp
      · rw [if_neg hg, ih]
        simp only [List.map_cons, List.map_nil, List.sum_cons, List.sum_nil]
        rw [hourAvg_G_i, if_neg hg]
        simp

lemma calculate_day_average_some (recs : List PVGISRecord)
    (resp : PVGISDayAverageResponse)
    (h : calculate_day_average recs = some resp) : resp = buildResponse recs := by
  unfold calculate_day_average at h
  by_cases he : recs.isEmpty
  · rw [if_pos he] at h
    simp at h
  · rw [if_neg he] at h
    exact (Option.some_inj.mp h).symm

lemma mapRange_getD (f : ℕ → HourlyData) (n i : ℕ) (hi : i < n) :
    (((List.range n).map f).map fun hd => hd.G_i).getD i 0 = (f i).G_i := by
  rw [List.getD_eq_getElem?_getD]
  simp [List.getElem?_map, List.getElem?_range, hi]

end PVGISPlusService

lemma negDayRecs_group_zero :
    PVGISPlusService.group negDayRecs 0 = [⟨0, -1, 0, 0, 0, 0⟩] := rfl

lemma negDayRecs_group_pos (h : ℕ) (hh : h ≠ 0) :
    PVGISPlusService.group negDayRecs h = [] := by
  have h' : (0 : ℕ) ≠ h := fun hc => hh hc.symm
  simp [PVGISPlusService.group, negDayRecs, List.filter_cons, List.filter_nil, h']

lemma negDayRecs_means_nonpos :
    ∀ h, h < 24 → (PVGISPlusService.hourAvg negDayRecs h).G_i ≤ 0 := by
  intro h _
  rw [PVGISPlusService.hourAvg_G_i]
  by_cases h0 : h = 0
  · subst h0
    rw [negDayRecs_group_zero]
    simp [PVGISPlusService.mean]
  · rw [negDayRecs_group_pos h h0]
    simp

lemma negDayRecs_peakAux : PVGISPlusService.peakAux negDayRecs 24 = (0, 0) := by
  rcases PVGISPlusService.peakAux_spec negDayRecs 24 with ⟨h1, _⟩ | ⟨g1, g2, g3, _, _⟩
  · exact h1
  · exact absurd (g3 ▸ negDayRecs_means_nonpos _ g2) (not_le.mpr g1)

lemma negDayRecs_hour0 : (PVGISPlusService.hourAvg negDayRecs 0).G_i = -1 := by
  rw [PVGISPlusService.hourAvg_G_i, negDayRecs_group_zero]
  simp [PVGISPlusService.mean]

lemma negDayRecs_all_nonpos :
    ∀ hd ∈ (PVGISPlusService.buildResponse negDayRecs).hourly_averages, hd.G_i ≤ 0 := by
  intro hd hmem
  simp only [PVGISPlusService.buildResponse, PVGISPlusService.hourly_averages,
    List.mem_map, List.mem_range] at hmem
  obtain ⟨h, hlt, rfl⟩ := hmem
  exact negDayRecs_means_nonpos h hlt

lemma posDayRecs_hour12 : (PVGISPlusService.hourAvg posDayRecs 12).G_i = 10 := by
  have hg : PVGISPlusService.group posDayRecs 12 = [⟨12, 10, 1, 2, 3, 4⟩] := rfl
  rw [PVGISPlusService.hourAvg_G_i, hg]
  simp [PVGISPlusService.mean]

lemma posDayRecs_exists_pos :
    ∃ hd ∈ (PVGISPlusService.buildResponse posDayRecs).hourly_averages, 0 < hd.G_i := by
  refine ⟨PVGISPlusService.hourAvg posDayRecs 12, ?_, ?_⟩
  · show _ ∈ (List.range 24).map (PVGISPlusService.hourAvg posDayRecs)
    exact List.mem_map.mpr ⟨12, List.mem_range.mpr (by norm_num), rfl⟩
  · rw [posDayRecs_hour12]
    norm_num

/-- C7: whenever `PVGISPlusService.calculate_day_average` returns a
response, it has exactly 24 `hourly_averages` entries; every entry with
`sample_count = 0` has all numeric fields equal to 0; and
`daily_total_energy` equals the sum of the 24 hourly mean irradiances. -/
theorem day_average_shape_zero_fill_and_total :
    ∀ recs resp, PVGISPlusService.calculate_day_average recs = some resp →
      resp.hourly_averages.length = 24 ∧
      (∀ hd ∈ resp.hourly_averages, hd.sample_count = 0 →
        hd.G_i = 0 ∧ hd.H_sun = 0 ∧ hd.T2m = 0 ∧ hd.WS10m = 0 ∧ hd.Int_ = 0) ∧
      resp.daily_total_energy = (resp.hourly_averages.map fun hd => hd.G_i).sum := by
  intro recs resp h
  have hr := PVGISPlusService.calculate_day_average_some recs resp h
  subst hr
  refine ⟨?_, ?_, ?_⟩
  · simp [PVGISPlusService.buildResponse, PVGISPlusService.hourly_averages]
  · intro hd hmem hc
    simp only [PVGISPlusService.buildResponse, PVGISPlusService.hourly_averages,
      List.mem_map, List.mem_range] at hmem
    obtain ⟨h', _, rfl⟩ := hmem
    by_cases hg : (PVGISPlusService.group recs h').isEmpty
    · refine ⟨?_, ?_, ?_, ?_, ?_⟩ <;> simp [PVGISPlusService.hourAvg, hg]
    · exfalso
      unfold PVGISPlusService.hourAvg at hc
      rw [if_neg hg] at hc
      exact hg (List.isEmpty_iff.mpr (List.length_eq_zero.mp hc))
  · show PVGISPlusService.dailyAux recs 24 =
      (((List.range 24).map (PVGISPlusService.hourAvg recs)).map fun hd => hd.G_i).sum
    rw [List.map_map, PVGISPlusService.dailyAux_eq_sum recs 24]
    rfl

/-- Witness for C7 at the concrete one-record set `posDayRecs`. -/
theorem day_average_shape_zero_fill_and_total_witness :
    PVGISPlusService.calculate_day_average posDayRecs =
      some (PVGISPlusService.buildResponse posDayRecs) ∧
    (PVGISPlusService.buildResponse posDayRecs).hourly_averages.length = 24 ∧
    (∀ hd ∈ (PVGISPlusService.buildResponse posDayRecs).hourly_averages,
      hd.sample_count = 0 →
      hd.G_i = 0 ∧ hd.H_sun = 0 ∧ hd.T2m = 0 ∧ hd.WS10m = 0 ∧ hd.Int_ = 0) ∧
    (PVGISPlusService.buildResponse posDayRecs).daily_total_energy =
      ((PVGISPlusService.buildResponse posDayRecs).hourly_averages.map
        fun hd => hd.G_i).sum := by
  have h : PVGISPlusService.calculate_day_average posDayRecs =
      some (PVGISPlusService.buildResponse posDayRecs) := rfl
  have hc := day_average_shape_zero_fill_and_total posDayRecs _ h
  exact ⟨h, hc.1, hc.2.1, hc.2.2⟩

/-- C6 (amended): whenever `PVGISPlusService.calculate_day_average`
returns a response and at least one hourly mean irradiance is strictly
positive, `peak_irradiance` is the maximum of the 24 hourly mean
irradiances and the entry at index `peak_hour` attains it. -/
theorem peak_is_max_when_some_positive :
    ∀ recs resp, PVGISPlusService.calculate_day_average recs = some resp →
      (∃ hd ∈ resp.hourly_averages, 0 < hd.G_i) →
      isListMax (resp.hourly_averages.map fun hd => hd.G_i) resp.peak_irradiance ∧
      (resp.hourly_averages.map fun hd => hd.G_i).getD resp.peak_hour 0 =
        resp.peak_irradiance := by
  intro recs resp h hex
  have hr := PVGISPlusService.calculate_day_average_some recs resp h
  subst hr
  obtain ⟨hd, hmem, hpos⟩ := hex
  simp only [PVGISPlusService.buildResponse, PVGISPlusService.hourly_averages,
    List.mem_map, List.mem_range] at hmem
  obtain ⟨h0, h0lt, rfl⟩ := hmem
  rcases PVGISPlusService.peakAux_spec recs 24 with ⟨_, hall⟩ | ⟨_, g2, g3, _, g5⟩
  · exact absurd hpos (not_lt.mpr (hall h0 h0lt))
  · refine ⟨⟨?_, ?_⟩, ?_⟩
    · show (PVGISPlusService.peakAux recs 24).2 ∈
        ((List.range 24).map (PVGISPlusService.hourAvg recs)).map fun hd => hd.G_i
      rw [List.map_map]
      exact List.mem_map.mpr ⟨(PVGISPlusService.peakAux recs 24).1,
        List.mem_range.mpr g2, g3⟩
    · intro x hx
      simp only [PVGISPlusService.buildResponse, PVGISPlusService.hourly_averages,
        List.map_map, List.mem_map, List.mem_range] at hx
      obtain ⟨h', h'lt, rfl⟩ := hx
      exact g5 h' h'lt
    · show (((List.range 24).map (PVGISPlusService.hourAvg recs)).map
        fun hd => hd.G_i).getD (PVGISPlusService.peakAux recs 24).1 0 =
          (PVGISPlusService.peakAux recs 24).2
      rw [PVGISPlusService.mapRange_getD (PVGISPlusService.hourAvg recs) 24 _ g2]
      exact g3

/-- Counterexample for C6 as frozen: on `negDayRecs` (one record at hour 0
with mean irradiance −1) the maximum hourly mean is 0, attained only at
hours 1–23, but the returned `peak_hour` is its initial value 0, whose
entry has mean −1: `peak_hour` is not an index of the maximum. -/
theorem peak_hour_not_index_of_max_counterexample :
    PVGISPlusService.calculate_day_average negDayRecs =
      some (PVGISPlusService.buildResponse negDayRecs) ∧
    (PVGISPlusService.buildResponse negDayRecs).peak_hour = 0 ∧
    (PVGISPlusService.buildResponse negDayRecs).peak_irradiance = 0 ∧
    ((PVGISPlusService.buildResponse negDayRecs).hourly_averages.map
      fun hd => hd.G_i).getD (PVGISPlusService.buildResponse negDayRecs).peak_hour 0 = -1 ∧
    ¬ ((PVGISPlusService.buildResponse negDayRecs).hourly_averages.map
      fun hd => hd.G_i).getD (PVGISPlusService.buildResponse negDayRecs).peak_hour 0 =
        (PVGISPlusService.buildResponse negDayRecs).peak_irradiance := by
  have hpk := negDayRecs_peakAux
  have h1 : (PVGISPlusService.buildResponse negDayRecs).peak_hour = 0 := by
    show (PVGISPlusService.peakAux negDayRecs 24).1 = 0
    rw [hpk]
  have h2 : (PVGISPlusService.buildResponse negDayRecs).peak_irradiance = 0 := by
    show (PVGISPlusService.peakAux negDayRecs 24).2 = 0
    rw [hpk]
  have h3 : ((PVGISPlusService.buildResponse negDayRecs).hourly_averages.map
      fun hd => hd.G_i).getD (PVGISPlusService.buildResponse negDayRecs).peak_hour 0 = -1 := by
    rw [h1]
    show (((List.range 24).map (PVGISPlusService.hourAvg negDayRecs)).map
      fun hd => hd.G_i).getD 0 0 = -1
    rw [PVGISPlusService.mapRange_getD (PVGISPlusService.hourAvg negDayRecs) 24 0
      (by norm_num)]
    exact negDayRecs_hour0
  refine ⟨rfl, h1, h2, h3, ?_⟩
  rw [h3, h2]
  norm_num

/-- Witness for C6's amended theorem at the concrete one-record set
`posDayRecs` (hour 12, mean irradiance 10). -/
theorem peak_is_max_when_some_positive_witness :
    PVGISPlusService.calculate_day_average posDayRecs =
      some (PVGISPlusService.buildResponse posDayRecs) ∧
    (∃ hd ∈ (PVGISPlusService.buildResponse posDayRecs).hourly_averages, 0 < hd.G_i) ∧
    isListMax ((PVGISPlusService.buildResponse posDayRecs).hourly_averages.map
      fun hd => hd.G_i) (PVGISPlusService.buildResponse posDayRecs).peak_irradiance ∧
    ((PVGISPlusService.buildResponse posDayRecs).hourly_averages.map
      fun hd => hd.G_i).getD (PVGISPlusService.buildResponse posDayRecs).peak_hour 0 =
        (PVGISPlusService.buildResponse posDayRecs).peak_irradiance := by
  have h : PVGISPlusService.calculate_day_average posDayRecs =
      some (PVGISPlusService.buildResponse posDayRecs) := rfl
  have hc := peak_is_max_when_some_positive posDayRecs _ h posDayRecs_exists_pos
  exact ⟨h, posDayRecs_exists_pos, hc.1, hc.2⟩

/-- C10: whenever `PVGISPlusService.calculate_day_average` returns a
response, then (a) if no hourly mean irradiance is strictly positive,
`peak_irradiance` and `peak_hour` keep their initial values `0.0` and `0`,
regardless of which hour attains the maximum; and (b) if some mean is
strictly positive, `peak_hour` is below 24, its entry attains
`peak_irradiance`, and every earlier entry is strictly smaller — the
smallest index attaining the maximum (ties resolve to the earliest hour). -/
theorem peak_initial_values_and_earliest_tie :
    ∀ recs resp, PVGISPlusService.calculate_day_average recs = some resp →
      ((∀ hd ∈ resp.hourly_averages, hd.G_i ≤ 0) →
        resp.peak_irradiance = 0 ∧ resp.peak_hour = 0) ∧
      ((∃ hd ∈ resp.hourly_averages, 0 < hd.G_i) →
        resp.peak_hour < 24 ∧
        (resp.hourly_averages.map fun hd => hd.G_i).getD resp.peak_hour 0 =
          resp.peak_irradiance ∧
        (∀ j, j < resp.peak_hour →
          (resp.hourly_averages.map fun hd => hd.G_i).getD j 0 <
            resp.peak_irradiance) ∧
        (∀ j, j < 24 →
          (resp.hourly_averages.map fun hd => hd.G_i).getD j 0 ≤
            resp.peak_irradiance)) := by
  intro recs resp h
  have hr := PVGISPlusService.calculate_day_average_some recs resp h
  subst hr
  constructor
  · intro hall
    have hall' : ∀ h', h' < 24 → (PVGISPlusService.hourAvg recs h').G_i ≤ 0 := by
      intro h' hlt
      exact hall (PVGISPlusService.hourAvg recs h')
        (List.mem_map.mpr ⟨h', List.mem_range.mpr hlt, rfl⟩)
    have hpk : PVGISPlusService.peakAux recs 24 = (0, 0) := by
      rcases PVGISPlusService.peakAux_spec recs 24 with ⟨h1, _⟩ | ⟨g1, g2, g3, _, _⟩
      · exact h1
      · exact absurd (g3 ▸ hall' _ g2) (not_le.mpr g1)
    constructor
    · show (PVGISPlusService.peakAux recs 24).2 = 0
      rw [hpk]
    · show (PVGISPlusService.peakAux recs 24).1 = 0
      rw [hpk]
  · intro hex
    obtain ⟨hd, hmem, hpos⟩ := hex
    simp only [PVGISPlusService.buildResponse, PVGISPlusService.hourly_averages,
      List.mem_map, List.mem_range] at hmem
    obtain ⟨h0, h0lt, rfl⟩ := hmem
    rcases PVGISPlusService.peakAux_spec recs 24 with ⟨_, hall⟩ | ⟨_, g2, g3, g4, g5⟩
    · exact absurd hpos (not_lt.mpr (hall h0 h0lt))
    · refine ⟨g2, ?_, ?_, ?_⟩
      · show (((List.range 24).map (PVGISPlusService.hourAvg recs)).map
          fun hd => hd.G_i).getD (PVGISPlusService.peakAux recs 24).1 0 =
            (PVGISPlusService.peakAux recs 24).2
        rw [PVGISPlusService.mapRange_getD (PVGISPlusService.hourAvg recs) 24 _ g2]
        exact g3
      · intro j hj
        show (((List.range 24).map (PVGISPlusService.hourAvg recs)).map
          fun hd => hd.G_i).getD j 0 < (PVGISPlusService.peakAux recs 24).2
        rw [PVGISPlusService.mapRange_getD (PVGISPlusService.hourAvg recs) 24 j
          (lt_trans hj g2)]
        exact g4 j hj
      · intro j hj
        show (((List.range 24).map (PVGISPlusService.hourAvg recs)).map
          fun hd => hd.G_i).getD j 0 ≤ (PVGISPlusService.peakAux recs 24).2
        rw [PVGISPlusService.mapRange_getD (PVGISPlusService.hourAvg recs) 24 j hj]
        exact g5 j hj

/-- Witness for C10 at the concrete one-record set `negDayRecs`, whose
hourly means are all non-positive: the returned peak values are the
initial `(0, 0.0)`. -/
theorem peak_initial_values_and_earliest_tie_witness :
    PVGISPlusService.calculate_day_average negDayRecs =
      some (PVGISPlusService.buildResponse negDayRecs) ∧
    (∀ hd ∈ (PVGISPlusService.buildResponse negDayRecs).hourly_averages, hd.G_i ≤ 0) ∧
    (PVGISPlusService.buildResponse negDayRecs).peak_irradiance = 0 ∧
    (PVGISPlusService.buildResponse negDayRecs).peak_hour = 0 := by
  have h : PVGISPlusService.calculate_day_average negDayRecs =
      some (PVGISPlusService.buildResponse negDayRecs) := rfl
  have hc := (peak_initial_values_and_earliest_tie negDayRecs _ h).1 negDayRecs_all_nonpos
  exact ⟨h, negDayRecs_all_nonpos, hc.1, hc.2⟩

/-- C9: the API implementation (src/api/app/services/birdmodel.py with its
utils) and the duplicate implementation in src/random/tgunes2/bird_model.py
compute identical results on every input — for the Bird model all nine
output fields agree (and both fail on exactly the same inputs) — and
likewise for the Julian-date, pressure and solar-position helpers; the
variants differ only by logging and exception re-wrapping, which have no
semantic counterpart here. -/
theorem api_and_tgunes2_variants_agree :
    (∀ (month day year : ℤ) (hour minute second : ℚ),
      Tg.JulianDateCalculator.calculate month day year hour minute second =
        JulianDateCalculator.calculate month day year hour minute second) ∧
    (∀ p elev : ℝ, Tg.PressureCalculator.station_pressure p elev =
        PressureCalculator.station_pressure p elev) ∧
    (∀ jd lon lat : ℝ, Tg.SolarPositionCalculator.calculate jd lon lat =
        SolarPositionCalculator.calculate jd lon lat) ∧
    (∀ inputs : SolarInputsDataclass, Tg.BirdModel.calculate inputs =
        BirdModel.calculate inputs) :=
  ⟨fun _ _ _ _ _ _ => rfl, fun _ _ => rfl, fun _ _ _ => rfl, fun _ => rfl⟩


lemma powD_of_eq_zero_pos (x y : ℝ) (hx : x = 0) (hy : 0 < y) : powD x y = some 0 := by
  simp only [powD]
  rw [if_neg (by rw [hx]; exact lt_irrefl 0), if_pos hx, if_pos hy]

lemma bind_isSome {α β : Type} (o : Option α) (f : α → Option β) (a : α)
    (ho : o = some a) (h : (f a).isSome) : (o.bind f).isSome := by
  rw [ho]
  simpa using h

set_option maxHeartbeats 1000000 in
lemma birdCore_some_example :
    ∃ out, BirdModel.birdCore 2451545 1013 0 1
      ⟨1367, 0, 0, 0, 1, 1, 2000, 12, 0, 0, 1013, 0, 0, 0, 0, 0⟩ = some out := by
  have hq0 : (0:ℝ) < ((93.885:ℝ) - 0) ^ (-1.25:ℝ) :=
    Real.rpow_pos_of_pos (by norm_num) _
  have hq1 : ((93.885:ℝ) - 0) ^ (-1.25:ℝ) < 1 :=
    Real.rpow_lt_one_of_one_lt_of_neg (by norm_num) (by norm_num)
  have hcos : Real.cos (0 * (Real.pi / 180)) = 1 := by rw [zero_mul, Real.cos_zero]
  have hD : 1 < Real.cos (0 * (Real.pi / 180)) +
      0.15 * ((93.885:ℝ) - 0) ^ (-1.25:ℝ) := by
    rw [hcos]; nlinarith
  have hDpos : 0 < Real.cos (0 * (Real.pi / 180)) +
      0.15 * ((93.885:ℝ) - 0) ^ (-1.25:ℝ) := lt_trans zero_lt_one hD
  have hAMpos : 0 < 1 / (Real.cos (0 * (Real.pi / 180)) +
      0.15 * ((93.885:ℝ) - 0) ^ (-1.25:ℝ)) := one_div_pos.mpr hDpos
  have hAMlt : 1 / (Real.cos (0 * (Real.pi / 180)) +
      0.15 * ((93.885:ℝ) - 0) ^ (-1.25:ℝ)) < 1 := (div_lt_one hDpos).mpr hD
  have hAMp : 0 < 1 / (Real.cos (0 * (Real.pi / 180)) +
      0.15 * ((93.885:ℝ) - 0) ^ (-1.25:ℝ)) * 1013 / 1013 :=
    div_pos (mul_pos hAMpos (by norm_num)) (by norm_num)
  have h102 : 0 < (1 / (Real.cos (0 * (Real.pi / 180)) +
      0.15 * ((93.885:ℝ) - 0) ^ (-1.25:ℝ))) ^ (1.02:ℝ) :=
    Real.rpow_pos_of_pos hAMpos _
  have hIas : (0:ℝ) < 1 - 1 / (Real.cos (0 * (Real.pi / 180)) +
      0.15 * ((93.885:ℝ) - 0) ^ (-1.25:ℝ)) +
      (1 / (Real.cos (0 * (Real.pi / 180)) +
        0.15 * ((93.885:ℝ) - 0) ^ (-1.25:ℝ))) ^ (1.02:ℝ) := by linarith
  suffices h : (BirdModel.birdCore 2451545 1013 0 1
      ⟨1367, 0, 0, 0, 1, 1, 2000, 12, 0, 0, 1013, 0, 0, 0, 0, 0⟩).isSome by
    obtain ⟨out, hout⟩ := Option.isSome_iff_exists.mp h
    exact ⟨out, hout⟩
  unfold BirdModel.birdCore
  refine bind_isSome _ _ _ (powD_of_pos _ _ (by norm_num)) ?_
  refine bind_isSome _ _ _ (divD_of_ne _ _ (ne_of_gt hDpos)) ?_
  refine bind_isSome _ _ _ (powD_of_pos _ _ hAMp) ?_
  refine bind_isSome _ _ _ (powD_of_pos _ _ hAMp) ?_
  refine bind_isSome _ _ _ (powD_of_pos _ _ (by norm_num)) ?_
  refine bind_isSome _ _ _ (divD_of_ne _ _ (by norm_num)) ?_
  refine bind_isSome _ _ _ (powD_of_pos _ _ hAMp) ?_
  refine bind_isSome _ _ _ (powD_of_eq_zero_pos _ _ (by norm_num) (by norm_num)) ?_
  refine bind_isSome _ _ _ (divD_of_ne _ _ (by norm_num)) ?_
  refine bind_isSome _ _ _ (powD_of_eq_zero_pos _ _ (by norm_num) (by norm_num)) ?_
  refine bind_isSome _ _ _ (powD_of_eq_zero_pos _ _ (by norm_num) (by norm_num)) ?_
  refine bind_isSome _ _ _ (powD_of_pos _ _ hAMpos) ?_
  refine bind_isSome _ _ _ (powD_of_pos _ _ hAMpos) ?_
  refine bind_isSome _ _ _ (divD_of_ne _ _ (by norm_num [Real.exp_zero])) ?_
  refine bind_isSome _ _ _ (divD_of_ne _ _ (by norm_num)) ?_
  refine bind_isSome _ _ _ (powD_of_pos _ _ hAMpos) ?_
  refine bind_isSome _ _ _ (divD_of_ne _ _ (ne_of_gt hIas)) ?_
  refine bind_isSome _ _ _ (divD_of_ne _ _ (by norm_num)) ?_
  rfl
